import Mathlib

/-!
Shallow embedding of the goc-persona skill.

The persona registry (persona-registry.cjs) persists a single JSON document
mapping persona names to persona records.  JSON objects are embedded as
association lists over String keys, preserving insertion order the way the
JavaScript runtime does (overwrite keeps the original position, a new key is
appended, delete removes the entry).  Timestamps produced by the code with
new Date().toISOString() are passed in explicitly as a parameter named now.
The on-disk document, which may be unreadable or unparseable, is embedded as
Option Registry where none stands for a document that failed to read/parse.
-/

set_option autoImplicit false

namespace GocPersona

/-- Lookup of a property in a JS object, embedded as an association list. -/
def alistLookup {α : Type} : List (String × α) → String → Option α
  | [], _ => none
  | (k, v) :: rest, key => if k = key then some v else alistLookup rest key

/-- Property assignment obj[key] = v: overwrite in place keeps the position
of the key, a new key is appended at the end. -/
def alistInsert {α : Type} : List (String × α) → String → α → List (String × α)
  | [], key, v => [(key, v)]
  | (k, w) :: rest, key, v =>
    if k = key then (key, v) :: rest else (k, w) :: alistInsert rest key v

/-- Property deletion (the JS delete operator): removes the entry for key. -/
def alistDelete {α : Type} (m : List (String × α)) (key : String) : List (String × α) :=
  m.filter (fun e => e.1 != key)

/-- Object.keys: the property names in order. -/
def objKeys {α : Type} (m : List (String × α)) : List String :=
  m.map Prod.fst

/-- A credential marker, written by addKey as
\x7b configured: true, configuredAt: now \x7d.  As a JS object it is always
truthy, whatever the field values are. -/
structure Marker where
  configured : Bool
  configuredAt : String
  deriving DecidableEq, Repr

/-- A persona record as stored in the registry document.  The keys field can
be absent in the document (the code guards every access with keys or empty),
so it is an Option.  The createdAt field is a JSON string; the code tests it
only for truthiness (empty string is falsy).  Unknown extra fields that a
hand-edited document may carry are kept in extra as raw name/text pairs. -/
structure PersonaRecord where
  status : String
  repo : String
  path : String
  keys : Option (List (String × Marker))
  createdAt : String
  lastUpdated : String
  extra : List (String × String)
  deriving DecidableEq, Repr

/-- The parsed registry document: personas mapping plus the document-level
lastUpdated stamp (null before the first write). -/
structure Registry where
  personas : List (String × PersonaRecord)
  lastUpdated : Option String
  deriving DecidableEq, Repr

/-- The fallback document used by _readRegistry on a missing or unparseable
file: \x7b personas: \x7b\x7d, lastUpdated: null \x7d. -/
def emptyRegistry : Registry :=
  { personas := [], lastUpdated := none }

/-- _readRegistry: parse the document; on any read/parse failure fall back to
the empty registry. -/
def readRegistry (doc : Option Registry) : Registry :=
  doc.getD emptyRegistry

/-- _writeRegistry: stamp data.lastUpdated with the current time and persist. -/
def writeRegistry (reg : Registry) (now : String) : Registry :=
  { reg with lastUpdated := some now }

/-- COMMON_KEYS from persona-registry.cjs. -/
def COMMON_KEYS : List String :=
  ["openai", "anthropic", "google", "elevenlabs", "huggingface",
   "replicate", "stability", "midjourney", "custom"]

/-- _getMissingKeys: the common key kinds whose entry in configuredKeys is
absent (a present Marker is a JS object, hence truthy, so only absence makes
the filter keep the kind). -/
def getMissingKeys (configuredKeys : List (String × Marker)) : List String :=
  COMMON_KEYS.filter (fun key => (alistLookup configuredKeys key).isNone)

/-- _isPersonaReady: at least one configured key and status is not error. -/
def isPersonaReady (p : PersonaRecord) : Bool :=
  decide (0 < (objKeys (p.keys.getD [])).length) && p.status != "error"

/-- The enriched view returned by get: the record spread together with the
derived fields keysConfigured, missingKeys and isReady. -/
structure PersonaDetails where
  name : String
  record : PersonaRecord
  keysConfigured : List String
  missingKeys : List String
  isReady : Bool
  deriving DecidableEq, Repr

/-- get(name): none when the persona is absent, otherwise the record enriched
with the derived fields. -/
def get (doc : Option Registry) (name : String) : Option PersonaDetails :=
  let registry := readRegistry doc
  match alistLookup registry.personas name with
  | none => none
  | some persona =>
    some { name := name
         , record := persona
         , keysConfigured := objKeys (persona.keys.getD [])
         , missingKeys := getMissingKeys (persona.keys.getD [])
         , isReady := isPersonaReady persona }

/-- register(name, repo, path): insert or replace the record for name.  The
createdAt expression embeds registry.personas[name]?.createdAt or now, where
the optional chaining on an absent record and an empty (falsy) string both
fall through to now. -/
def register (doc : Option Registry) (name repo path : String) (now : String) :
    Option Registry :=
  let registry := readRegistry doc
  let createdAt :=
    match alistLookup registry.personas name with
    | some p => if p.createdAt = "" then now else p.createdAt
    | none => now
  let newRec : PersonaRecord :=
    { status := "needs-setup"
    , repo := repo
    , path := path
    , keys := some []
    , createdAt := createdAt
    , lastUpdated := now
    , extra := [] }
  some (writeRegistry { registry with personas := alistInsert registry.personas name newRec } now)

/-- updateStatus(name, status): false without a write when name is absent,
otherwise overwrite status and lastUpdated and persist. -/
def updateStatus (doc : Option Registry) (name status now : String) :
    Bool × Option Registry :=
  let registry := readRegistry doc
  match alistLookup registry.personas name with
  | none => (false, doc)
  | some p =>
    let p2 := { p with status := status, lastUpdated := now }
    (true, some (writeRegistry { registry with personas := alistInsert registry.personas name p2 } now))

/-- addKey(name, keyType): false without a write when name is absent,
otherwise initialize keys when the field is missing, set the marker
\x7b configured: true, configuredAt: now \x7d, stamp lastUpdated, persist. -/
def addKey (doc : Option Registry) (name keyType now : String) :
    Bool × Option Registry :=
  let registry := readRegistry doc
  match alistLookup registry.personas name with
  | none => (false, doc)
  | some p =>
    let ks := p.keys.getD []
    let p2 := { p with
      keys := some (alistInsert ks keyType { configured := true, configuredAt := now })
    , lastUpdated := now }
    (true, some (writeRegistry { registry with personas := alistInsert registry.personas name p2 } now))

/-- removeKey(name, keyType): false without a write when the persona or its
keys field is absent; otherwise delete the marker (a no-op when the kind was
never added), stamp lastUpdated, persist, and return true. -/
def removeKey (doc : Option Registry) (name keyType now : String) :
    Bool × Option Registry :=
  let registry := readRegistry doc
  match alistLookup registry.personas name with
  | none => (false, doc)
  | some p =>
    match p.keys with
    | none => (false, doc)
    | some ks =>
      let p2 := { p with keys := some (alistDelete ks keyType), lastUpdated := now }
      (true, some (writeRegistry { registry with personas := alistInsert registry.personas name p2 } now))

/-- unregister(name): false without a write when name is absent, otherwise
delete the record and persist. -/
def unregister (doc : Option Registry) (name now : String) :
    Bool × Option Registry :=
  let registry := readRegistry doc
  match alistLookup registry.personas name with
  | none => (false, doc)
  | some _ =>
    (true, some (writeRegistry { registry with personas := alistDelete registry.personas name } now))

/-- getKeys(name): Object.keys of the keys mapping of the get view, or the
empty list when the persona is absent. -/
def getKeys (doc : Option Registry) (name : String) : List String :=
  match get doc name with
  | some persona => objKeys (persona.record.keys.getD [])
  | none => []

/-- The add-key command of index.js: bail out when get finds no persona;
otherwise call addKey, re-read the persona, and when the updated view has no
missing keys while status is not already ready, call updateStatus(name,
ready).  The two timestamps are the ones taken inside addKey and inside
updateStatus. -/
def addKeyCmdRun (doc : Option Registry) (name keyType : String) (now1 now2 : String) :
    Option Registry :=
  match get doc name with
  | none => doc
  | some _ =>
    let doc1 := (addKey doc name keyType now1).2
    match get doc1 name with
    | none => doc1
    | some updated =>
      if updated.missingKeys.length == 0 && updated.record.status != "ready" then
        (updateStatus doc1 name "ready" now2).2
      else doc1

/-- The structured result of initializeRepo: either success with the repo
identifier, or failure with an error message (all exceptions are caught and
turned into this result, so the caller never sees a thrown error). -/
inductive RepoResult : Type where
  | ok (repo : String)
  | failed (error : String)
  deriving DecidableEq, Repr

/-- The persona-name extraction in repo-initializer.cjs:
repoName.replace(goc-persona- anchored at the start, empty). -/
def stripRepoTag (repoName : String) : String :=
  if "goc-persona-".isPrefixOf repoName then repoName.drop 12 else repoName

/-- initializeRepo from repo-initializer.cjs, with the external git/gh
process calls abstracted by the outcome flag: when every external step
succeeds the function auto-registers the persona (name extracted from
repoName, repo orgName/repoName) and returns ok; when any step fails the
catch block restores the working directory and returns failed without
touching the registry. -/
def initializeRepo (outcome : Bool) (doc : Option Registry)
    (localPath repoName orgName now : String) : RepoResult × Option Registry :=
  if outcome then
    let githubRepo := orgName ++ "/" ++ repoName
    let personaName := stripRepoTag repoName
    (RepoResult.ok githubRepo, register doc personaName githubRepo localPath now)
  else
    (RepoResult.failed "error", doc)

/-- The create-persona command of index.js, restricted to its registry
effects: the scaffold and config steps (steps 1 and 2) only touch the
filesystem; step 3 calls initializeRepo(personaPath, name, greenclawdbot)
and ignores its result; step 4 always registers the persona under
greenclawdbot/goc-persona-name at personaPath.  The home parameter stands
for process.env.HOME. -/
def createPersonaRun (bootstrapOutcome : Bool) (doc : Option Registry)
    (home name : String) (nowB nowR : String) : Option Registry :=
  let personaPath := home ++ "/personas/" ++ name
  let githubRepo := "greenclawdbot/goc-persona-" ++ name
  let doc1 := (initializeRepo bootstrapOutcome doc personaPath name "greenclawdbot" nowB).2
  register doc1 name githubRepo personaPath nowR

/-! Concrete fixtures used by witnesses and counterexamples. -/

/-- A registered persona with an empty keys mapping. -/
def aliceRec : PersonaRecord :=
  { status := "needs-setup"
  , repo := "greenclawdbot/goc-persona-alice"
  , path := "/home/u/personas/alice"
  , keys := some []
  , createdAt := "T0"
  , lastUpdated := "T0"
  , extra := [] }

/-- A document holding only alice. -/
def aliceDoc : Option Registry :=
  some { personas := [("alice", aliceRec)], lastUpdated := some "T0" }

/-- Markers for the first eight common kinds, leaving only custom missing. -/
def eightKeys : List (String × Marker) :=
  [("openai", { configured := true, configuredAt := "T0" }),
   ("anthropic", { configured := true, configuredAt := "T0" }),
   ("google", { configured := true, configuredAt := "T0" }),
   ("elevenlabs", { configured := true, configuredAt := "T0" }),
   ("huggingface", { configured := true, configuredAt := "T0" }),
   ("replicate", { configured := true, configuredAt := "T0" }),
   ("stability", { configured := true, configuredAt := "T0" }),
   ("midjourney", { configured := true, configuredAt := "T0" })]

/-- A persona missing only the custom kind. -/
def bobRec : PersonaRecord :=
  { status := "needs-setup"
  , repo := "greenclawdbot/goc-persona-bob"
  , path := "/home/u/personas/bob"
  , keys := some eightKeys
  , createdAt := "T0"
  , lastUpdated := "T0"
  , extra := [] }

/-- A document holding only bob. -/
def bobDoc : Option Registry :=
  some { personas := [("bob", bobRec)], lastUpdated := some "T0" }

/-- A persona record carrying an unknown extra field named nickname. -/
def carolRec : PersonaRecord :=
  { status := "ready"
  , repo := "greenclawdbot/goc-persona-carol"
  , path := "/home/u/personas/carol"
  , keys := some []
  , createdAt := "T0"
  , lastUpdated := "T0"
  , extra := [("nickname", "42")] }

/-- A document holding only carol. -/
def carolDoc : Option Registry :=
  some { personas := [("carol", carolRec)], lastUpdated := some "T0" }

/-! Helper lemmas about the association-list embedding of JS objects. -/

theorem alistLookup_insert_self {α : Type} (m : List (String × α)) (k : String) (v : α) :
    alistLookup (alistInsert m k v) k = some v := by
  induction m with
  | nil => simp [alistInsert, alistLookup]
  | cons e rest ih =>
    obtain ⟨k1, w⟩ := e
    by_cases h : k1 = k
    · simp [alistInsert, h, alistLookup]
    · simp [alistInsert, h, alistLookup, ih]

theorem objKeys_cons {α : Type} (k : String) (v : α) (rest : List (String × α)) :
    objKeys ((k, v) :: rest) = k :: objKeys rest := rfl

theorem readRegistry_some (reg : Registry) : readRegistry (some reg) = reg := rfl

theorem alistLookup_eq_none_iff {α : Type} (m : List (String × α)) (k : String) :
    alistLookup m k = none ↔ k ∉ objKeys m := by
  induction m with
  | nil => simp [alistLookup, objKeys]
  | cons e rest ih =>
    obtain ⟨k1, w⟩ := e
    by_cases h : k1 = k
    · simp [alistLookup, objKeys, h]
    · have h2 : alistLookup ((k1, w) :: rest) k = alistLookup rest k := by
        simp [alistLookup, h]
      rw [h2, ih, objKeys_cons, List.mem_cons]
      constructor
      · intro hnot hor
        cases hor with
        | inl he => exact h he.symm
        | inr hm => exact hnot hm
      · intro hnot hm
        exact hnot (Or.inr hm)

theorem alistDelete_eq_self {α : Type} (m : List (String × α)) (k : String)
    (h : alistLookup m k = none) : alistDelete m k = m := by
  induction m with
  | nil => rfl
  | cons e rest ih =>
    obtain ⟨k1, w⟩ := e
    by_cases hk : k1 = k
    · simp [alistLookup, hk] at h
    · have h2 : alistLookup rest k = none := by
        simpa [alistLookup, hk] using h
      have h3 : alistDelete rest k = rest := ih h2
      simp only [alistDelete, List.filter_cons] at h3 ⊢
      simp [bne_iff_ne, hk, h3]

/-! Claim theorems. -/

/-- Claim C1 counterexample: alice is registered with an existing (empty)
keys mapping and openai was never added, yet removeKey returns true and
mutates the persisted document (the lastUpdated stamps change). -/
theorem removeKey_missing_kind_cex :
    (removeKey aliceDoc "alice" "openai" "T1").1 = true ∧
    (removeKey aliceDoc "alice" "openai" "T1").2 ≠ aliceDoc := by
  decide

/-- Claim C1 (amended): for a registered persona whose keys mapping exists
(possibly empty) and a credential kind absent from that mapping, removeKey
returns true, deletes nothing from the keys mapping, but still persists the
document with refreshed lastUpdated stamps; failure (false, no write) occurs
only when the persona or its keys field is absent. -/
theorem removeKey_absent_kind (doc : Option Registry) (name keyType now : String)
    (p : PersonaRecord) (ks : List (String × Marker))
    (hp : alistLookup (readRegistry doc).personas name = some p)
    (hks : p.keys = some ks)
    (hmiss : alistLookup ks keyType = none) :
    (removeKey doc name keyType now).1 = true ∧
    (removeKey doc name keyType now).2 =
      some (writeRegistry { readRegistry doc with
        personas := alistInsert (readRegistry doc).personas name
          { p with keys := some ks, lastUpdated := now } } now) := by
  have hdel : alistDelete ks keyType = ks := alistDelete_eq_self ks keyType hmiss
  constructor
  · simp [removeKey, hp, hks]
  · simp [removeKey, hp, hks, hdel]

/-- Claim C1 amended witness at the concrete fixture. -/
theorem removeKey_absent_kind_witness :
    (removeKey aliceDoc "alice" "openai" "T1").1 = true ∧
    (removeKey aliceDoc "alice" "openai" "T1").2 =
      some (writeRegistry { readRegistry aliceDoc with
        personas := alistInsert (readRegistry aliceDoc).personas "alice"
          { aliceRec with keys := some [], lastUpdated := "T1" } } "T1") :=
  removeKey_absent_kind aliceDoc "alice" "openai" "T1" aliceRec []
    (by decide) (by decide) (by decide)

/-- Claim C2: register always writes a record with status needs-setup and an
empty keys mapping; when a record with a truthy (nonempty) createdAt already
exists, that createdAt is preserved, and when no record exists, createdAt is
set to the current time. -/
theorem register_createdAt_spec (doc : Option Registry) (name repo path now : String) :
    (∀ p, alistLookup (readRegistry doc).personas name = some p → p.createdAt ≠ "" →
      alistLookup (readRegistry (register doc name repo path now)).personas name =
        some { status := "needs-setup", repo := repo, path := path, keys := some []
             , createdAt := p.createdAt, lastUpdated := now, extra := [] }) ∧
    (alistLookup (readRegistry doc).personas name = none →
      alistLookup (readRegistry (register doc name repo path now)).personas name =
        some { status := "needs-setup", repo := repo, path := path, keys := some []
             , createdAt := now, lastUpdated := now, extra := [] }) := by
  constructor
  · intro p hp hne
    simp [register, hp, hne, readRegistry_some, writeRegistry, alistLookup_insert_self]
  · intro hnone
    simp [register, hnone, readRegistry_some, writeRegistry, alistLookup_insert_self]

/-- Claim C2 witness: re-registering alice keeps createdAt T0, resets keys
and status. -/
theorem register_createdAt_spec_witness :
    alistLookup (readRegistry (register aliceDoc "alice" "r2" "p2" "T2")).personas "alice" =
      some { status := "needs-setup", repo := "r2", path := "p2", keys := some []
           , createdAt := "T0", lastUpdated := "T2", extra := [] } :=
  (register_createdAt_spec aliceDoc "alice" "r2" "p2" "T2").1 aliceRec
    (by decide) (by decide)

/-- Claim C4: a persona counts as ready exactly when its keys mapping holds
at least one configured key of any kind and its status is not error; the
derived view produced by get carries exactly this bit, with no reference to
missingKeys. -/
theorem isReady_iff (p : PersonaRecord) :
    (isPersonaReady p = true ↔ (objKeys (p.keys.getD []) ≠ [] ∧ p.status ≠ "error")) ∧
    (∀ (doc : Option Registry) (name : String),
      (get doc name).map PersonaDetails.isReady =
        (alistLookup (readRegistry doc).personas name).map isPersonaReady) := by
  constructor
  · simp [isPersonaReady, List.length_pos, bne_iff_ne]
  · intro doc name
    cases h : alistLookup (readRegistry doc).personas name with
    | none => simp [get, h]
    | some q => simp [get, h]

/-- Claim C5: each common credential kind is missing exactly when it is not
among the configured key names, so the common list is partitioned between
missingKeys and the configured names; and missingKeys is a sublist of
COMMON_KEYS, preserving its order. -/
theorem missingKeys_partition (ks : List (String × Marker)) :
    (∀ k, k ∈ COMMON_KEYS → (k ∈ getMissingKeys ks ↔ k ∉ objKeys ks)) ∧
    List.Sublist (getMissingKeys ks) COMMON_KEYS := by
  constructor
  · intro k hk
    constructor
    · intro hmem
      have hn := List.of_mem_filter (p := fun key => (alistLookup ks key).isNone) hmem
      rw [Option.isNone_iff_eq_none] at hn
      exact (alistLookup_eq_none_iff ks k).mp hn
    · intro hnot
      apply List.mem_filter.mpr
      refine ⟨hk, ?_⟩
      rw [Option.isNone_iff_eq_none]
      exact (alistLookup_eq_none_iff ks k).mpr hnot
  · exact List.filter_sublist COMMON_KEYS

/-- Claim C5 witness at the empty keys mapping and the kind openai. -/
theorem missingKeys_partition_witness :
    ("openai" ∈ getMissingKeys [] ↔ "openai" ∉ objKeys ([] : List (String × Marker))) :=
  (missingKeys_partition []).1 "openai" (by decide)

/-- Claim C6: on a name absent from the personas mapping, updateStatus,
addKey and unregister all return false and return the document unchanged,
with no write. -/
theorem unregistered_ops_fail (doc : Option Registry) (name status keyType now : String)
    (h : alistLookup (readRegistry doc).personas name = none) :
    updateStatus doc name status now = (false, doc) ∧
    addKey doc name keyType now = (false, doc) ∧
    unregister doc name now = (false, doc) := by
  refine ⟨?_, ?_, ?_⟩ <;> simp [updateStatus, addKey, unregister, h]

/-- Claim C6 witness at the unregistered name ghost. -/
theorem unregistered_ops_fail_witness :
    updateStatus aliceDoc "ghost" "ready" "T1" = (false, aliceDoc) ∧
    addKey aliceDoc "ghost" "openai" "T1" = (false, aliceDoc) ∧
    unregister aliceDoc "ghost" "T1" = (false, aliceDoc) :=
  unregistered_ops_fail aliceDoc "ghost" "ready" "openai" "T1" (by decide)

/-- Claim C3: after the add-key command on a registered persona, the stored
status is ready exactly when the marker insertion leaves no missing common
keys while the previous status was not already ready; otherwise the status
keeps its previous value. -/
theorem addKeyCmd_ready_transition (doc : Option Registry) (name keyType : String)
    (now1 now2 : String) (p : PersonaRecord)
    (hp : alistLookup (readRegistry doc).personas name = some p) :
    (alistLookup (readRegistry (addKeyCmdRun doc name keyType now1 now2)).personas name).map
      PersonaRecord.status =
    some (if (getMissingKeys (alistInsert (p.keys.getD []) keyType
                { configured := true, configuredAt := now1 })).length == 0
             && p.status != "ready"
          then "ready" else p.status) := by
  have hgd : get doc name =
      some { name := name, record := p
           , keysConfigured := objKeys (p.keys.getD [])
           , missingKeys := getMissingKeys (p.keys.getD [])
           , isReady := isPersonaReady p } := by
    simp [get, hp]
  have hadd : (addKey doc name keyType now1).2 =
      some (writeRegistry
        { readRegistry doc with
          personas := alistInsert (readRegistry doc).personas name
            { p with
              keys := some (alistInsert (p.keys.getD []) keyType
                { configured := true, configuredAt := now1 }),
              lastUpdated := now1 } }
        now1) := by
    simp [addKey, hp]
  have hg2 : get (addKey doc name keyType now1).2 name =
      some { name := name,
             record :=
               { p with
                 keys := some (alistInsert (p.keys.getD []) keyType
                   { configured := true, configuredAt := now1 }),
                 lastUpdated := now1 },
             keysConfigured := objKeys (alistInsert (p.keys.getD []) keyType
               { configured := true, configuredAt := now1 }),
             missingKeys := getMissingKeys (alistInsert (p.keys.getD []) keyType
               { configured := true, configuredAt := now1 }),
             isReady := isPersonaReady
               { p with
                 keys := some (alistInsert (p.keys.getD []) keyType
                   { configured := true, configuredAt := now1 }),
                 lastUpdated := now1 } } := by
    rw [hadd]
    simp [get, readRegistry_some, writeRegistry, alistLookup_insert_self]
  simp only [addKeyCmdRun, hgd, hg2]
  cases hcond : (getMissingKeys (alistInsert (p.keys.getD []) keyType
      { configured := true, configuredAt := now1 })).length == 0 && p.status != "ready" with
  | true =>
    simp only [hcond, if_true]
    rw [hadd]
    simp [updateStatus, readRegistry_some, writeRegistry, alistLookup_insert_self]
  | false =>
    simp only [hcond, Bool.false_eq_true, if_false]
    rw [hadd]
    simp [readRegistry_some, writeRegistry, alistLookup_insert_self]

/-- Claim C3 witness: bob has every common kind but custom; adding custom
empties missingKeys and flips the stored status to ready. -/
theorem addKeyCmd_ready_transition_witness :
    (alistLookup (readRegistry (addKeyCmdRun bobDoc "bob" "custom" "T1" "T2")).personas "bob").map
      PersonaRecord.status =
    some (if (getMissingKeys (alistInsert (bobRec.keys.getD []) "custom"
                { configured := true, configuredAt := "T1" })).length == 0
             && bobRec.status != "ready"
          then "ready" else bobRec.status) :=
  addKeyCmd_ready_transition bobDoc "bob" "custom" "T1" "T2" bobRec (by decide)

/-- Claim C7 counterexample: register is a read-modify-write operation of the
store, yet it replaces the whole record, so the unknown extra field nickname
on carol is dropped by re-registration instead of being preserved verbatim. -/
theorem register_drops_extra_cex :
    (alistLookup (readRegistry (register carolDoc "carol" "r2" "p2" "T1")).personas "carol").map
      PersonaRecord.extra = some [] ∧
    (alistLookup (readRegistry carolDoc).personas "carol").map PersonaRecord.extra =
      some [("nickname", "42")] := by
  decide

/-- Claim C7 (amended): updateStatus, addKey and removeKey mutate the stored
record in place and preserve unknown extra record fields verbatim; register
instead replaces the record wholesale and drops them. -/
theorem updates_preserve_extra (doc : Option Registry) (name arg now : String)
    (p : PersonaRecord)
    (hp : alistLookup (readRegistry doc).personas name = some p) :
    ((alistLookup (readRegistry (updateStatus doc name arg now).2).personas name).map
       PersonaRecord.extra = some p.extra) ∧
    ((alistLookup (readRegistry (addKey doc name arg now).2).personas name).map
       PersonaRecord.extra = some p.extra) ∧
    ((alistLookup (readRegistry (removeKey doc name arg now).2).personas name).map
       PersonaRecord.extra = some p.extra) := by
  refine ⟨?_, ?_, ?_⟩
  · simp [updateStatus, hp, readRegistry_some, writeRegistry, alistLookup_insert_self]
  · simp [addKey, hp, readRegistry_some, writeRegistry, alistLookup_insert_self]
  · cases hks : p.keys with
    | none => simp [removeKey, hp, hks]
    | some ks => simp [removeKey, hp, hks, readRegistry_some, writeRegistry,
        alistLookup_insert_self]

/-- Claim C7 amended witness at the carol fixture. -/
theorem updates_preserve_extra_witness :
    ((alistLookup (readRegistry (updateStatus carolDoc "carol" "error" "T1").2).personas
        "carol").map PersonaRecord.extra = some carolRec.extra) ∧
    ((alistLookup (readRegistry (addKey carolDoc "carol" "error" "T1").2).personas
        "carol").map PersonaRecord.extra = some carolRec.extra) ∧
    ((alistLookup (readRegistry (removeKey carolDoc "carol" "error" "T1").2).personas
        "carol").map PersonaRecord.extra = some carolRec.extra) :=
  updates_preserve_extra carolDoc "carol" "error" "T1" carolRec (by decide)

/-- Claim C8: when the repo bootstrap reports failure, create-persona is not
aborted: the bootstrap leaves the registry untouched and the command still
registers the persona locally, so the final document equals plain
registration on the original document and the stored record carries the
intended identifier greenclawdbot/goc-persona-name. -/
theorem createPersona_bootstrap_failure (doc : Option Registry)
    (home name nowB nowR : String) :
    createPersonaRun false doc home name nowB nowR =
      register doc name ("greenclawdbot/goc-persona-" ++ name)
        (home ++ "/personas/" ++ name) nowR ∧
    (alistLookup (readRegistry (createPersonaRun false doc home name nowB nowR)).personas
        name).map PersonaRecord.repo = some ("greenclawdbot/goc-persona-" ++ name) := by
  constructor
  · simp [createPersonaRun, initializeRepo]
  · simp [createPersonaRun, initializeRepo, register, readRegistry_some, writeRegistry,
      alistLookup_insert_self]

/-- Claim C9: a document that fails to read or parse is treated as the empty
registry by every operation, and a subsequent mutating operation persists the
state computed from that empty registry, discarding whatever the unreadable
document held: register on the corrupt document yields a document holding
only the newly registered record. -/
theorem corrupt_doc_fallback (name repo path status now : String) :
    readRegistry none = emptyRegistry ∧
    register none name repo path now = register (some emptyRegistry) name repo path now ∧
    (updateStatus none name status now).1 = (updateStatus (some emptyRegistry) name status now).1 ∧
    register none name repo path now =
      some { personas := [(name,
              { status := "needs-setup", repo := repo, path := path, keys := some []
              , createdAt := now, lastUpdated := now, extra := [] })]
           , lastUpdated := some now } := by
  refine ⟨rfl, rfl, rfl, ?_⟩
  simp [register, readRegistry, emptyRegistry, alistLookup, alistInsert, writeRegistry]

/-- Claim C10: getKeys returns the empty list for an unregistered name, and
for a registered name exactly the credential-kind names present in the keys
mapping of the record. -/
theorem getKeys_spec (doc : Option Registry) (name : String) :
    (alistLookup (readRegistry doc).personas name = none → getKeys doc name = []) ∧
    (∀ p, alistLookup (readRegistry doc).personas name = some p →
      getKeys doc name = objKeys (p.keys.getD [])) := by
  constructor
  · intro h
    simp [getKeys, get, h]
  · intro p h
    simp [getKeys, get, h]

/-- Claim C10 witness: absent name ghost gives the empty list, registered bob
gives the names of the eight configured kinds. -/
theorem getKeys_spec_witness :
    getKeys bobDoc "ghost" = [] ∧
    getKeys bobDoc "bob" = objKeys (bobRec.keys.getD []) :=
  ⟨(getKeys_spec bobDoc "ghost").1 (by decide),
   (getKeys_spec bobDoc "bob").2 bobRec (by decide)⟩

end GocPersona
